import Mathlib

/-!
# Verification of the 3dlab volume-visualization system

Shallow embedding of the 3dlab repository (Rust client/server for viewing
3-D scalar fields) together with proofs about its resampling pipeline,
HTTP route handlers, occupancy-grid builder, CPU raycast picker, rotation
state and async volume-data consumer.

Scalar values (`f32` in the source) are modelled as exact rationals `ℚ`
where the code performs only field arithmetic and comparisons, and as
reals `ℝ` where trigonometry or square roots are involved (quaternion
rotation updates).  Machine integers (`usize`, `u32`) are modelled as `ℕ`.
-/

/-! ## Server side: `hdf5_reader.rs`

`ndarray::Array3<f32>` is modelled as three dimensions plus a total
indexing function; `data[[x,y,z]]` is `a.data x y z`.  The dense
row-major byte serialization `to_bytes` (flat `f32` little-endian list,
`z` fastest) is modelled as the flat list of values in the same order:
each rational in the list stands for the four bytes of one `f32`, so the
byte payload is empty exactly when the value list is empty. -/

structure Array3 where
  n0 : ℕ
  n1 : ℕ
  n2 : ℕ
  data : ℕ → ℕ → ℕ → ℚ

/-- `HDF5Volume::downsample` (`src/server/src/hdf5_reader.rs:106-133`):
`factor = (max_dim / target_size).max(1)` with integer division; when
`factor == 1` the input array is cloned, otherwise each new axis has
`shape[i] / factor` voxels and
`result[[x,y,z]] = data[[x*factor, y*factor, z*factor]]` (point sampling). -/
def downsample (a : Array3) (target_size : ℕ) : Array3 :=
  let max_dim := max a.n0 (max a.n1 a.n2)
  let factor := max (max_dim / target_size) 1
  if factor = 1 then a
  else
    { n0 := a.n0 / factor
      n1 := a.n1 / factor
      n2 := a.n2 / factor
      data := fun x y z => a.data (x * factor) (y * factor) (z * factor) }

/-- `HDF5Volume::to_bytes`: the values of the array flattened in standard
(row-major, `z` fastest) order; one list entry per emitted `f32`. -/
def to_bytes (a : Array3) : List ℚ :=
  (List.range a.n0).flatMap fun x =>
    (List.range a.n1).flatMap fun y =>
      (List.range a.n2).map fun z => a.data x y z

/-! ## Server side: `routes.rs`

A loaded `HDF5Volume`'s backing-store read (`File::open` + dataset read,
performed inside `spawn_blocking` for `get_full_res_data` and
`get_data_at_resolution`) is abstracted as `readResult`: either the
dense array or the `HDF5Error` display string. -/

structure HDF5Volume where
  /-- Outcome of re-opening and reading the backing HDF5 file. -/
  readResult : Except String Array3

/-- `HDF5Volume::get_full_res_data`: read the file, serialize. -/
def get_full_res_data (v : HDF5Volume) : Except String (List ℚ) :=
  match v.readResult with
  | .error e => .error e
  | .ok data => .ok (to_bytes data)

/-- `HDF5Volume::get_data_at_resolution`: read the file, downsample,
serialize, and report the resulting shape. -/
def get_data_at_resolution (v : HDF5Volume) (target_size : ℕ) :
    Except String (List ℚ × (ℕ × ℕ × ℕ)) :=
  match v.readResult with
  | .error e => .error e
  | .ok data =>
      let resampled := downsample data target_size
      .ok (to_bytes resampled, (resampled.n0, resampled.n1, resampled.n2))

/-- `shared::ErrorResponse` — the structured JSON error body. -/
structure ErrorResponse where
  error : String
deriving DecidableEq

/-- Rust `usize::clamp(min, max)`: `if self < min { min } else if self > max { max } else { self }`. -/
def usizeClamp (x lo hi : ℕ) : ℕ :=
  if x < lo then lo else if x > hi then hi else x

/-- HTTP response of a binary volume-data route: either a `200` with the
payload (plus, for `/at/`, the `x-volume-dims` header contents), or an
error status with a structured JSON body. -/
inductive VolumeResponse (α : Type) where
  | ok (payload : α)
  | err (status : ℕ) (body : ErrorResponse)
deriving DecidableEq

/-- The server's volume map `AppState.volumes` (`HashMap<String, HDF5Volume>`),
as the lookup function `get_volume`. -/
def VolumeStore : Type := String → Option HDF5Volume

def notFoundBody (id : String) : ErrorResponse :=
  { error := "Volume \x27" ++ id ++ "\x27 not found" }

def readFailureBody (e : String) : ErrorResponse :=
  { error := "Failed to read volume: " ++ e }

/-- `get_volume_full` (`src/server/src/routes.rs:87-111`): look the id up;
`404` with a structured body on unknown id, `500` with a structured body
when the read fails, raw bytes otherwise. -/
def get_volume_full (store : VolumeStore) (id : String) :
    VolumeResponse (List ℚ) :=
  match store id with
  | some volume =>
      match get_full_res_data volume with
      | .ok data => .ok data
      | .error e => .err 500 (readFailureBody e)
  | none => .err 404 (notFoundBody id)

/-- `get_volume_at_resolution` (`src/server/src/routes.rs:115-151`): clamp
the requested resolution to `[16, 512]`, then as for `/full` but the `200`
response also carries the actual dims (the `x-volume-dims` header). -/
def get_volume_at_resolution (store : VolumeStore) (id : String)
    (resolution : ℕ) : VolumeResponse (List ℚ × (ℕ × ℕ × ℕ)) :=
  let resolution := usizeClamp resolution 16 512
  match store id with
  | some volume =>
      match get_data_at_resolution volume resolution with
      | .ok payload => .ok payload
      | .error e => .err 500 (readFailureBody e)
  | none => .err 404 (notFoundBody id)

/-! ### Resampler lemmas -/

/-- The factor used by `downsample`. -/
def dsFactor (a : Array3) (target_size : ℕ) : ℕ :=
  max ((max a.n0 (max a.n1 a.n2)) / target_size) 1

lemma downsample_eq_of_factor_one (a : Array3) (t : ℕ)
    (h : dsFactor a t = 1) : downsample a t = a := by
  unfold downsample
  simp only [dsFactor] at h
  simp [h]

lemma downsample_dims (a : Array3) (t : ℕ) :
    (downsample a t).n0 = a.n0 / dsFactor a t ∧
    (downsample a t).n1 = a.n1 / dsFactor a t ∧
    (downsample a t).n2 = a.n2 / dsFactor a t := by
  unfold downsample dsFactor
  by_cases h : max ((max a.n0 (max a.n1 a.n2)) / t) 1 = 1
  · simp [h]
  · simp [h]

lemma downsample_data (a : Array3) (t : ℕ) (x y z : ℕ) :
    (downsample a t).data x y z =
      a.data (x * dsFactor a t) (y * dsFactor a t) (z * dsFactor a t) := by
  unfold downsample dsFactor
  by_cases h : max ((max a.n0 (max a.n1 a.n2)) / t) 1 = 1
  · simp [h]
  · simp [h]

lemma dsFactor_eq_one_of_le (a : Array3) (t : ℕ) (ht : 0 < t)
    (h : max a.n0 (max a.n1 a.n2) ≤ t) : dsFactor a t = 1 := by
  unfold dsFactor
  have h1 : (max a.n0 (max a.n1 a.n2)) / t ≤ 1 := by
    calc (max a.n0 (max a.n1 a.n2)) / t ≤ t / t := Nat.div_le_div_right h
    _ = 1 := Nat.div_self ht
  omega

lemma dsFactor_eq_one_of_between (a : Array3) (t : ℕ)
    (h1 : t ≤ max a.n0 (max a.n1 a.n2))
    (h2 : max a.n0 (max a.n1 a.n2) < 2 * t) : dsFactor a t = 1 := by
  unfold dsFactor
  have ht : 0 < t := by omega
  have hlo : 1 ≤ (max a.n0 (max a.n1 a.n2)) / t := by
    rw [Nat.le_div_iff_mul_le ht]; omega
  have hhi : (max a.n0 (max a.n1 a.n2)) / t < 2 := by
    rw [Nat.div_lt_iff_lt_mul ht]; omega
  omega

lemma to_bytes_nil_of_dim_zero (a : Array3)
    (h : a.n0 = 0 ∨ a.n1 = 0 ∨ a.n2 = 0) : to_bytes a = [] := by
  unfold to_bytes
  rcases h with h | h | h <;> simp [h, List.flatMap]

/-! ## Claim C1 — resampler dimensions and point sampling -/

/-- Claim C1: for every input field and positive `target_size`, the
resampler produces output dimensions `dim_i = native_dim_i / factor`
(floored) with the single integer `factor = max(1, max(native_dims) /
target_size)` applied to all three axes, and each destination voxel
`(x,y,z)` equals the source voxel at `(x*factor, y*factor, z*factor)`
(pure point sampling); in particular an 8×8×8 field resampled with
`target_size = 4` yields a 4×4×4 result with `result[0,0,0] =
source[0,0,0]` and `result[3,3,3] = source[6,6,6]`. -/
theorem downsample_point_sampling :
    (∀ (a : Array3) (t : ℕ), 0 < t →
      (downsample a t).n0 = a.n0 / dsFactor a t ∧
      (downsample a t).n1 = a.n1 / dsFactor a t ∧
      (downsample a t).n2 = a.n2 / dsFactor a t ∧
      ∀ x y z : ℕ, (downsample a t).data x y z =
        a.data (x * dsFactor a t) (y * dsFactor a t) (z * dsFactor a t)) ∧
    (∀ a : Array3, a.n0 = 8 → a.n1 = 8 → a.n2 = 8 →
      (downsample a 4).n0 = 4 ∧ (downsample a 4).n1 = 4 ∧
      (downsample a 4).n2 = 4 ∧
      (downsample a 4).data 0 0 0 = a.data 0 0 0 ∧
      (downsample a 4).data 3 3 3 = a.data 6 6 6) := by
  constructor
  · intro a t _
    refine ⟨(downsample_dims a t).1, (downsample_dims a t).2.1,
      (downsample_dims a t).2.2, fun x y z => downsample_data a t x y z⟩
  · intro a h0 h1 h2
    have hf : dsFactor a 4 = 2 := by
      unfold dsFactor; rw [h0, h1, h2]; decide
    refine ⟨?_, ?_, ?_, ?_, ?_⟩
    · rw [(downsample_dims a 4).1, hf, h0]
    · rw [(downsample_dims a 4).2.1, hf, h1]
    · rw [(downsample_dims a 4).2.2, hf, h2]
    · rw [downsample_data a 4 0 0 0, hf]
    · rw [downsample_data a 4 3 3 3, hf]

/-- A concrete 8×8×8 field whose voxel `(x,y,z)` holds `x*100 + y*10 + z`. -/
def a8Field : Array3 :=
  { n0 := 8, n1 := 8, n2 := 8
    data := fun x y z => (x * 100 + y * 10 + z : ℚ) }

theorem downsample_point_sampling_witness :
    0 < 4 ∧ (downsample a8Field 4).n0 = 4 ∧
      (downsample a8Field 4).data 3 3 3 = (666 : ℚ) := by
  have h := downsample_point_sampling.2 a8Field rfl rfl rfl
  refine ⟨by norm_num, h.1, ?_⟩
  rw [h.2.2.2.2]
  norm_num [a8Field]

/-! ## Claim C6 — identity when target_size covers the native dims -/

/-- Claim C6: for every field `F` and every positive
`target_size ≥ max(F.dims)`, resampling is the identity: the factor is `1`
and `resample(F, target_size)` is exactly `F` (unchanged dimensions,
value-for-value copy). -/
theorem downsample_identity_of_target_ge (a : Array3) (t : ℕ) (ht : 0 < t)
    (h : max a.n0 (max a.n1 a.n2) ≤ t) :
    dsFactor a t = 1 ∧ downsample a t = a := by
  have hf := dsFactor_eq_one_of_le a t ht h
  exact ⟨hf, downsample_eq_of_factor_one a t hf⟩

theorem downsample_identity_of_target_ge_witness :
    (0 < 8 ∧ max a8Field.n0 (max a8Field.n1 a8Field.n2) ≤ 8) ∧
      (dsFactor a8Field 8 = 1 ∧ downsample a8Field 8 = a8Field) :=
  ⟨⟨by norm_num, by decide⟩,
    downsample_identity_of_target_ge a8Field 8 (by norm_num) (by decide)⟩

/-! ## Claim C5 — resolution clamping in the route handler -/

/-- Claim C5: the `at_resolution` handler clamps the requested
`target_size` to `[16, 512]` before resampling, so for every store and
volume id, requesting resolution `1` produces exactly the same response
as requesting `16`, and requesting `100000` the same response as `512`. -/
theorem at_resolution_clamps (store : VolumeStore) (id : String) :
    get_volume_at_resolution store id 1 = get_volume_at_resolution store id 16 ∧
    get_volume_at_resolution store id 100000 =
      get_volume_at_resolution store id 512 := by
  constructor <;> rfl

/-! ## Claim C9 — structured error responses -/

/-- Claim C9: for every volume-data HTTP request, an unknown volume id
yields status `404` with a structured JSON error body, and a known id
whose backing-store read fails yields status `500` with a structured
JSON error body; in particular requesting `/api/volumes/unknown-id/full`
returns a `404` with a structured error body. -/
theorem volume_routes_error_handling :
    (∀ (store : VolumeStore) (id : String), store id = none →
      get_volume_full store id = .err 404 (notFoundBody id) ∧
      ∀ r : ℕ, get_volume_at_resolution store id r = .err 404 (notFoundBody id)) ∧
    (∀ (store : VolumeStore) (id : String) (v : HDF5Volume) (e : String),
      store id = some v → v.readResult = .error e →
      get_volume_full store id = .err 500 (readFailureBody e) ∧
      ∀ r : ℕ, get_volume_at_resolution store id r = .err 500 (readFailureBody e)) ∧
    (∀ store : VolumeStore, store "unknown-id" = none →
      get_volume_full store "unknown-id" =
        .err 404 { error := "Volume \x27unknown-id\x27 not found" }) := by
  refine ⟨?_, ?_, ?_⟩
  · intro store id h
    constructor
    · unfold get_volume_full; rw [h]
    · intro r; unfold get_volume_at_resolution; rw [h]
  · intro store id v e hs hr
    constructor
    · simp [get_volume_full, get_full_res_data, hs, hr]
    · intro r; simp [get_volume_at_resolution, get_data_at_resolution, hs, hr]
  · intro store h
    unfold get_volume_full; rw [h]; rfl

/-- A store with no volumes at all. -/
def emptyStore : VolumeStore := fun _ => none

/-- A store holding one volume `"v"` whose backing read fails. -/
def failingStore : VolumeStore :=
  fun id => if id = "v" then some { readResult := .error "boom" } else none

theorem volume_routes_error_handling_witness :
    (emptyStore "unknown-id" = none ∧ failingStore "v" = some { readResult := .error "boom" }) ∧
    get_volume_full emptyStore "unknown-id" =
      .err 404 { error := "Volume \x27unknown-id\x27 not found" } ∧
    get_volume_full failingStore "v" =
      .err 500 { error := "Failed to read volume: boom" } :=
  ⟨⟨rfl, rfl⟩,
    volume_routes_error_handling.2.2 emptyStore rfl,
    (volume_routes_error_handling.2.1 failingStore "v"
      { readResult := .error "boom" } "boom" rfl rfl).1⟩

/-! ## Claim C10 — resampled dims are not bounded by target_size -/

/-- Claim C10: because the factor is the integer quotient
`max_dim / target_size` raised to at least `1`, the resampled maximum
dimension is not bounded by `target_size`: whenever `max(native_dims)`
lies strictly between `target_size` and `2*target_size` the factor is `1`
and the native field is returned unchanged — e.g. a 600³ volume requested
through the route at resolution `100000` (clamped to the maximum, `512`)
comes back with dimension `600`.  Conversely an axis smaller than the
factor yields dimension `0` and an empty byte payload. -/
theorem downsample_dims_not_bounded :
    (∀ (a : Array3) (t : ℕ), t < max a.n0 (max a.n1 a.n2) →
      max a.n0 (max a.n1 a.n2) < 2 * t →
      dsFactor a t = 1 ∧ downsample a t = a) ∧
    (∀ (a : Array3) (store : VolumeStore),
      store "vol" = some { readResult := .ok a } →
      a.n0 = 600 → a.n1 = 600 → a.n2 = 600 →
      get_volume_at_resolution store "vol" 100000 =
        .ok (to_bytes a, (600, 600, 600))) ∧
    (∀ (a : Array3) (t : ℕ), 0 < t →
      (a.n0 < dsFactor a t → (downsample a t).n0 = 0) ∧
      (a.n1 < dsFactor a t → (downsample a t).n1 = 0) ∧
      (a.n2 < dsFactor a t → (downsample a t).n2 = 0) ∧
      ((a.n0 < dsFactor a t ∨ a.n1 < dsFactor a t ∨ a.n2 < dsFactor a t) →
        to_bytes (downsample a t) = [])) := by
  refine ⟨?_, ?_, ?_⟩
  · intro a t h1 h2
    have hf := dsFactor_eq_one_of_between a t (Nat.le_of_lt h1) h2
    exact ⟨hf, downsample_eq_of_factor_one a t hf⟩
  · intro a store hs h0 h1 h2
    have hf : dsFactor a 512 = 1 := by
      apply dsFactor_eq_one_of_between a 512 <;> rw [h0, h1, h2] <;> norm_num
    have hid := downsample_eq_of_factor_one a 512 hf
    have hc : usizeClamp 100000 16 512 = 512 := rfl
    simp [get_volume_at_resolution, get_data_at_resolution, hs, hc, hid, h0, h1, h2]
  · intro a t _
    refine ⟨?_, ?_, ?_, ?_⟩
    · intro h
      rw [(downsample_dims a t).1]
      exact Nat.div_eq_of_lt h
    · intro h
      rw [(downsample_dims a t).2.1]
      exact Nat.div_eq_of_lt h
    · intro h
      rw [(downsample_dims a t).2.2]
      exact Nat.div_eq_of_lt h
    · intro h
      apply to_bytes_nil_of_dim_zero
      rcases h with h | h | h
      · exact Or.inl (by rw [(downsample_dims a t).1]; exact Nat.div_eq_of_lt h)
      · exact Or.inr (Or.inl (by rw [(downsample_dims a t).2.1]; exact Nat.div_eq_of_lt h))
      · exact Or.inr (Or.inr (by rw [(downsample_dims a t).2.2]; exact Nat.div_eq_of_lt h))

/-- A concrete all-zero 600³ field. -/
def a600Field : Array3 := { n0 := 600, n1 := 600, n2 := 600, data := fun _ _ _ => 0 }

/-- A store holding `a600Field` under id `"vol"`. -/
def store600 : VolumeStore := fun _ => some { readResult := .ok a600Field }

/-- A concrete 1024×1×1 field. -/
def thinField : Array3 := { n0 := 1024, n1 := 1, n2 := 1, data := fun _ _ _ => 0 }

theorem downsample_dims_not_bounded_witness :
    (store600 "vol" = some { readResult := .ok a600Field } ∧ 0 < 16 ∧
        thinField.n1 < dsFactor thinField 16) ∧
      get_volume_at_resolution store600 "vol" 100000 =
        .ok (to_bytes a600Field, (600, 600, 600)) ∧
      (downsample thinField 16).n1 = 0 ∧
      to_bytes (downsample thinField 16) = [] := by
  have h3 := downsample_dims_not_bounded.2.2 thinField 16 (by norm_num)
  refine ⟨⟨rfl, by norm_num, by decide⟩, ?_, ?_, ?_⟩
  · exact downsample_dims_not_bounded.2.1 a600Field store600 rfl rfl rfl rfl
  · exact h3.2.1 (by decide)
  · exact h3.2.2.2 (Or.inr (Or.inl (by decide)))

/-! ## Client side: `volume_renderer.rs` — occupancy grid

`compute_occupancy_grid` (`src/client/src/renderer/volume_renderer.rs:266-304`).
The dense data lives in a flat `&[f32]`, modelled as `List ℚ`; the grid is
a flat `Vec<f32>` of `16*16*16` entries.  The per-axis cell computation
`((x as f32) / cell_size).min((grid_size - 1) as f32) as usize` becomes
`⌊min ((x : ℚ) / cell_size) 15⌋₊` (the `f32 → usize` cast truncates the
non-negative quotient). -/

def OCCUPANCY_GRID_SIZE : ℕ := 16

/-- Per-axis coarse-cell index of a voxel coordinate,
`((coord as f32) / cell_size).min((grid_size - 1) as f32) as usize`
with `cell_size = dim / 16`. -/
def occCell (coord dim : ℕ) : ℕ :=
  ⌊min ((coord : ℚ) / ((dim : ℚ) / (OCCUPANCY_GRID_SIZE : ℚ)))
      ((OCCUPANCY_GRID_SIZE : ℚ) - 1)⌋₊

/-- Flat index into the occupancy grid: `ox * gs * gs + oy * gs + oz`. -/
def occIndex (ox oy oz : ℕ) : ℕ :=
  ox * OCCUPANCY_GRID_SIZE * OCCUPANCY_GRID_SIZE + oy * OCCUPANCY_GRID_SIZE + oz

/-- Flat index into the volume data: `x * dims[1] * dims[2] + y * dims[2] + z`. -/
def volIndex (dims : ℕ × ℕ × ℕ) (x y z : ℕ) : ℕ :=
  x * dims.2.1 * dims.2.2 + y * dims.2.2 + z

/-- One iteration of the voxel loop body of `compute_occupancy_grid`. -/
def occStep (data : List ℚ) (dims : ℕ × ℕ × ℕ) (threshold : ℚ)
    (occ : List ℚ) (v : ℕ × ℕ × ℕ) : List ℚ :=
  if volIndex dims v.1 v.2.1 v.2.2 < data.length then
    if data.getD (volIndex dims v.1 v.2.1 v.2.2) 0 > threshold then
      occ.set (occIndex (occCell v.1 dims.1) (occCell v.2.1 dims.2.1)
        (occCell v.2.2 dims.2.2)) 1
    else occ
  else occ

/-- The triple loop `for x { for y { for z { … } } }` as a voxel list. -/
def voxelList (dims : ℕ × ℕ × ℕ) : List (ℕ × ℕ × ℕ) :=
  (List.range dims.1).flatMap fun x =>
    (List.range dims.2.1).flatMap fun y =>
      (List.range dims.2.2).map fun z => (x, y, z)

/-- `VolumeRenderer::compute_occupancy_grid`: threshold is
`value_range[0] + (value_range[1] - value_range[0]) * 0.02`; every voxel
above it marks its coarse cell with `1.0` in a grid initialized to `0.0`. -/
def compute_occupancy_grid (data : List ℚ) (dims : ℕ × ℕ × ℕ)
    (value_range : ℚ × ℚ) : List ℚ :=
  let threshold := value_range.1 + (value_range.2 - value_range.1) * (2 / 100)
  (voxelList dims).foldl (occStep data dims threshold)
    (List.replicate (OCCUPANCY_GRID_SIZE * OCCUPANCY_GRID_SIZE * OCCUPANCY_GRID_SIZE) 0)

/-! ### Occupancy lemmas -/

lemma occCell_le (coord dim : ℕ) : occCell coord dim ≤ 15 := by
  unfold occCell OCCUPANCY_GRID_SIZE
  calc ⌊min ((coord : ℚ) / ((dim : ℚ) / (16 : ℚ))) ((16 : ℚ) - 1)⌋₊
      ≤ ⌊((16 : ℚ) - 1)⌋₊ := Nat.floor_le_floor (min_le_right _ _)
    _ = 15 := by norm_num

lemma occIndex_lt (ox oy oz : ℕ) (h0 : ox ≤ 15) (h1 : oy ≤ 15) (h2 : oz ≤ 15) :
    occIndex ox oy oz < 4096 := by
  unfold occIndex OCCUPANCY_GRID_SIZE
  omega

lemma occIndex_inj (a b c i j k : ℕ) (ha : a ≤ 15) (hb : b ≤ 15) (hc : c ≤ 15)
    (hi : i ≤ 15) (hj : j ≤ 15) (hk : k ≤ 15) :
    occIndex a b c = occIndex i j k ↔ a = i ∧ b = j ∧ c = k := by
  unfold occIndex OCCUPANCY_GRID_SIZE
  omega

lemma occStep_length (data : List ℚ) (dims : ℕ × ℕ × ℕ) (threshold : ℚ)
    (occ : List ℚ) (v : ℕ × ℕ × ℕ) :
    (occStep data dims threshold occ v).length = occ.length := by
  unfold occStep
  split <;> try rfl
  split <;> simp

lemma getD_set_self (l : List ℚ) (n : ℕ) (a : ℚ) (h : n < l.length) :
    (l.set n a).getD n 0 = a := by
  rw [List.getD_eq_getElem _ _ (by simpa using h)]
  simp [List.getElem_set]

lemma getD_set_ne (l : List ℚ) (n m : ℕ) (a : ℚ) (h : n ≠ m) :
    (l.set n a).getD m 0 = l.getD m 0 := by
  rcases lt_or_ge m l.length with hm | hm
  · rw [List.getD_eq_getElem _ _ (by simpa using hm),
      List.getD_eq_getElem _ _ hm]
    simp [List.getElem_set, h]
  · rw [List.getD_eq_default _ _ (by simpa using hm), List.getD_eq_default _ _ hm]

/-- Value of the fold at grid slot `m`: `1` if some voxel of the list
qualifies and maps to `m`, the initial value otherwise. -/
lemma occ_foldl_getD (data : List ℚ) (dims : ℕ × ℕ × ℕ) (threshold : ℚ)
    (L : List (ℕ × ℕ × ℕ)) (occ : List ℚ) (m : ℕ) (hlen : occ.length = 4096) :
    (L.foldl (occStep data dims threshold) occ).getD m 0 =
      if (∃ v ∈ L, volIndex dims v.1 v.2.1 v.2.2 < data.length ∧
            data.getD (volIndex dims v.1 v.2.1 v.2.2) 0 > threshold ∧
            occIndex (occCell v.1 dims.1) (occCell v.2.1 dims.2.1)
              (occCell v.2.2 dims.2.2) = m)
      then 1 else occ.getD m 0 := by
  induction L generalizing occ with
  | nil => simp
  | cons v L ih =>
    rw [List.foldl_cons, ih _ (by rw [occStep_length, hlen])]
    by_cases hq : volIndex dims v.1 v.2.1 v.2.2 < data.length ∧
        data.getD (volIndex dims v.1 v.2.1 v.2.2) 0 > threshold
    · have hstep : occStep data dims threshold occ v =
          occ.set (occIndex (occCell v.1 dims.1) (occCell v.2.1 dims.2.1)
            (occCell v.2.2 dims.2.2)) 1 := by
        unfold occStep
        rw [if_pos hq.1, if_pos hq.2]
      by_cases hm : occIndex (occCell v.1 dims.1) (occCell v.2.1 dims.2.1)
          (occCell v.2.2 dims.2.2) = m
      · have hset : (occStep data dims threshold occ v).getD m 0 = 1 := by
          rw [hstep, ← hm]
          exact getD_set_self _ _ _ (by
            rw [hlen]
            exact occIndex_lt _ _ _ (occCell_le _ _) (occCell_le _ _) (occCell_le _ _))
        rw [hset]
        have hex : ∃ w ∈ v :: L, volIndex dims w.1 w.2.1 w.2.2 < data.length ∧
            data.getD (volIndex dims w.1 w.2.1 w.2.2) 0 > threshold ∧
            occIndex (occCell w.1 dims.1) (occCell w.2.1 dims.2.1)
              (occCell w.2.2 dims.2.2) = m :=
          ⟨v, List.mem_cons_self _ _, hq.1, hq.2, hm⟩
        rw [if_pos hex]
        split <;> rfl
      · have hset : (occStep data dims threshold occ v).getD m 0 = occ.getD m 0 := by
          rw [hstep]
          exact getD_set_ne _ _ _ _ hm
        rw [hset]
        congr 1
        simp only [List.mem_cons, eq_iff_iff]
        constructor
        · rintro ⟨w, hw, h⟩
          exact ⟨w, Or.inr hw, h⟩
        · rintro ⟨w, (rfl | hw), h⟩
          · exact absurd h.2.2 hm
          · exact ⟨w, hw, h⟩
    · have hstep : occStep data dims threshold occ v = occ := by
        unfold occStep
        by_cases h1 : volIndex dims v.1 v.2.1 v.2.2 < data.length
        · rw [if_pos h1, if_neg (fun hgt => hq ⟨h1, hgt⟩)]
        · rw [if_neg h1]
      rw [hstep]
      congr 1
      simp only [List.mem_cons, eq_iff_iff]
      constructor
      · rintro ⟨w, hw, h⟩
        exact ⟨w, Or.inr hw, h⟩
      · rintro ⟨w, (rfl | hw), h⟩
        · exact absurd ⟨h.1, h.2.1⟩ hq
        · exact ⟨w, hw, h⟩

lemma mem_voxelList (dims : ℕ × ℕ × ℕ) (v : ℕ × ℕ × ℕ) :
    v ∈ voxelList dims ↔ v.1 < dims.1 ∧ v.2.1 < dims.2.1 ∧ v.2.2 < dims.2.2 := by
  obtain ⟨x, y, z⟩ := v
  simp [voxelList, List.mem_flatMap, List.mem_range, List.mem_map]
  aesop

lemma volIndex_lt (n0 n1 n2 x y z : ℕ) (hx : x < n0) (hy : y < n1) (hz : z < n2) :
    volIndex (n0, n1, n2) x y z < n0 * n1 * n2 := by
  unfold volIndex
  simp only
  calc x * n1 * n2 + y * n2 + z < x * n1 * n2 + y * n2 + n2 := by omega
    _ = x * n1 * n2 + (y + 1) * n2 := by ring
    _ ≤ x * n1 * n2 + n1 * n2 := by
        have : (y + 1) * n2 ≤ n1 * n2 := Nat.mul_le_mul_right _ (by omega)
        omega
    _ = (x + 1) * (n1 * n2) := by ring
    _ ≤ n0 * (n1 * n2) := Nat.mul_le_mul_right _ (by omega)
    _ = n0 * n1 * n2 := by ring

lemma getD_replicate_zero (n m : ℕ) : (List.replicate n (0 : ℚ)).getD m 0 = 0 := by
  rcases lt_or_ge m n with h | h
  · rw [List.getD_eq_getElem _ _ (by simpa using h)]
    simp
  · exact List.getD_eq_default _ _ (by simpa using h)

lemma getD_all_zero (l : List ℚ) (h : ∀ q ∈ l, q = 0) (n : ℕ) : l.getD n 0 = 0 := by
  rcases lt_or_ge n l.length with hn | hn
  · rw [List.getD_eq_getElem _ _ hn]
    exact h _ (l.getElem_mem hn)
  · exact List.getD_eq_default _ _ hn

/-- The min-then-truncate of the code equals floor-then-clamp. -/
lemma occCell_eq_floor_min (c d : ℕ) :
    occCell c d = min ⌊(c : ℚ) / ((d : ℚ) / 16)⌋₊ 15 := by
  unfold occCell OCCUPANCY_GRID_SIZE
  norm_num
  rcases le_total ((c : ℚ) / ((d : ℚ) / 16)) 15 with h | h
  · rw [min_eq_left h, min_eq_left]
    calc ⌊(c : ℚ) / ((d : ℚ) / 16)⌋₊ ≤ ⌊(15 : ℚ)⌋₊ := Nat.floor_le_floor h
      _ = 15 := by norm_num
  · rw [min_eq_right h, min_eq_right]
    · norm_num
    · have : (15 : ℚ) = ((15 : ℕ) : ℚ) := by norm_num
      exact Nat.le_floor (by rw [← this]; exact h)

/-- The raw-threshold test of the code is the normalized-value test of the
spec whenever the value range is non-degenerate. -/
lemma threshold_iff_normalized (vmin vmax v : ℚ) (h : vmin < vmax) :
    v > vmin + (vmax - vmin) * (2 / 100) ↔ (v - vmin) / (vmax - vmin) > 2 / 100 := by
  rw [gt_iff_lt, gt_iff_lt, lt_div_iff (by linarith)]
  constructor <;> intro h1 <;> nlinarith

/-! ## Claim C3 — occupancy grid characterization -/

/-- Claim C3: the occupancy grid builder marks a 16×16×16 coarse cell
occupied (value `1.0`) if and only if at least one voxel mapping into that
cell — via `floor(voxel_coord / cell_size)` with `cell_size = dim / 16`,
clamped to the last cell — has normalized value `(v - min)/(max - min)`
strictly greater than `0.02`; and for an all-zero field no cell is
occupied. -/
theorem occupancy_grid_occupied_iff (data : List ℚ) (n0 n1 n2 : ℕ)
    (vmin vmax : ℚ) (hlen : data.length = n0 * n1 * n2) (hrange : vmin < vmax) :
    (∀ i j k : ℕ, i < 16 → j < 16 → k < 16 →
      ((compute_occupancy_grid data (n0, n1, n2) (vmin, vmax)).getD
          (occIndex i j k) 0 = 1 ↔
        ∃ x y z : ℕ, x < n0 ∧ y < n1 ∧ z < n2 ∧
          occCell x n0 = i ∧ occCell y n1 = j ∧ occCell z n2 = k ∧
          (data.getD (volIndex (n0, n1, n2) x y z) 0 - vmin) / (vmax - vmin)
            > 2 / 100)) ∧
    (∀ c d : ℕ, occCell c d = min ⌊(c : ℚ) / ((d : ℚ) / 16)⌋₊ 15) ∧
    (∀ (data0 : List ℚ) (dims0 : ℕ × ℕ × ℕ), (∀ q ∈ data0, q = 0) →
      ∀ m : ℕ, (compute_occupancy_grid data0 dims0 (0, 0)).getD m 0 = 0) := by
  refine ⟨?_, occCell_eq_floor_min, ?_⟩
  · intro i j k hi hj hk
    simp only [compute_occupancy_grid]
    rw [occ_foldl_getD _ _ _ _ _ _
      (by rw [List.length_replicate]; decide), getD_replicate_zero]
    have hiff : (∃ v ∈ voxelList (n0, n1, n2),
        volIndex (n0, n1, n2) v.1 v.2.1 v.2.2 < data.length ∧
        data.getD (volIndex (n0, n1, n2) v.1 v.2.1 v.2.2) 0 >
          vmin + (vmax - vmin) * (2 / 100) ∧
        occIndex (occCell v.1 (n0, n1, n2).1) (occCell v.2.1 (n0, n1, n2).2.1)
          (occCell v.2.2 (n0, n1, n2).2.2) = occIndex i j k) ↔
        (∃ x y z : ℕ, x < n0 ∧ y < n1 ∧ z < n2 ∧
          occCell x n0 = i ∧ occCell y n1 = j ∧ occCell z n2 = k ∧
          (data.getD (volIndex (n0, n1, n2) x y z) 0 - vmin) / (vmax - vmin)
            > 2 / 100) := by
      constructor
      · rintro ⟨v, hv, hlt, hgt, hidx⟩
        obtain ⟨x, y, z⟩ := v
        rw [mem_voxelList] at hv
        have hinj := (occIndex_inj _ _ _ i j k (occCell_le _ _) (occCell_le _ _)
          (occCell_le _ _) (by omega) (by omega) (by omega)).1 hidx
        exact ⟨x, y, z, hv.1, hv.2.1, hv.2.2, hinj.1, hinj.2.1, hinj.2.2,
          (threshold_iff_normalized vmin vmax _ hrange).1 hgt⟩
      · rintro ⟨x, y, z, hx, hy, hz, hcx, hcy, hcz, hn⟩
        refine ⟨(x, y, z), (mem_voxelList _ _).2 ⟨hx, hy, hz⟩, ?_, ?_, ?_⟩
        · rw [hlen]; exact volIndex_lt n0 n1 n2 x y z hx hy hz
        · exact (threshold_iff_normalized vmin vmax _ hrange).2 hn
        · simp only
          rw [hcx, hcy, hcz]
    split_ifs with h
    · exact ⟨fun _ => hiff.1 h, fun _ => rfl⟩
    · exact ⟨fun h0 => absurd h0 (by norm_num), fun hr => absurd (hiff.2 hr) h⟩
  · intro data0 dims0 hz m
    simp only [compute_occupancy_grid]
    rw [occ_foldl_getD _ _ _ _ _ _ (by rw [List.length_replicate]; decide)]
    rw [if_neg, getD_replicate_zero]
    rintro ⟨v, _, _, hgt, _⟩
    rw [getD_all_zero data0 hz] at hgt
    norm_num at hgt

/-- A one-voxel field holding the value `5` with declared range `[0, 10]`. -/
def oneVoxelData : List ℚ := [5]

theorem occupancy_grid_occupied_iff_witness :
    (oneVoxelData.length = 1 * 1 * 1 ∧ (0 : ℚ) < 10) ∧
      (∀ i j k : ℕ, i < 16 → j < 16 → k < 16 →
        ((compute_occupancy_grid oneVoxelData (1, 1, 1) (0, 10)).getD
            (occIndex i j k) 0 = 1 ↔
          ∃ x y z : ℕ, x < 1 ∧ y < 1 ∧ z < 1 ∧
            occCell x 1 = i ∧ occCell y 1 = j ∧ occCell z 1 = k ∧
            (oneVoxelData.getD (volIndex (1, 1, 1) x y z) 0 - 0) / (10 - 0)
              > 2 / 100)) :=
  ⟨⟨by decide, by decide⟩,
    (occupancy_grid_occupied_iff oneVoxelData 1 1 1 0 10 (by decide) (by decide)).1⟩

/-! ## Client side: `app.rs` — async volume-data consumer

`VolumeData` (`src/client/src/app.rs:17-22`) carries only `data`, `dims`
and `value_range` — it has **no** volume-identifier field.  The
`volume_data` branch of `App::poll_async_state`
(`src/client/src/app.rs:374-393`) is modelled as a pure transition on the
fields it touches; `arrived` is `state.volume_data.take()`. -/

structure VolumeData where
  data : List ℚ
  dims : ℕ × ℕ × ℕ
  value_range : ℚ × ℚ
deriving DecidableEq

structure AppPollState where
  selected_volume : Option String
  loaded_volume : Option String
  loading_volume : Bool
  has_volume : Bool
  error : Option String
  cpu_volume_data : Option VolumeData
  render_value_range : ℚ × ℚ
  pending_volume : Option VolumeData
deriving DecidableEq

/-- The `volume_data` branch of `App::poll_async_state`: on `Ok(data)` the
result is kept as the CPU copy, pushed into the shared pending-volume
slot, and `loaded_volume` is set to the *currently selected* id; on
`Err(e)` the error is displayed.  No field of the result is compared with
`selected_volume`. -/
def poll_volume_data (app : AppPollState)
    (arrived : Option (Except String VolumeData)) : AppPollState :=
  match arrived with
  | none => app
  | some (.ok data) =>
      { app with
        loading_volume := false
        cpu_volume_data := some data
        render_value_range := data.value_range
        pending_volume := some data
        has_volume := true
        loaded_volume := app.selected_volume }
  | some (.error e) =>
      { app with error := some e, loading_volume := false }

/-! ## Claim C4 — stale fetched volume data is applied, not discarded -/

/-- Data fetched for the previously selected volume `"a"`. -/
def staleData : VolumeData :=
  { data := [7], dims := (1, 1, 1), value_range := (0, 7) }

/-- App state after the user has switched the selection to `"b"` while
the fetch for `"a"` was still in flight. -/
def staleApp : AppPollState :=
  { selected_volume := some "b"
    loaded_volume := some "a"
    loading_volume := true
    has_volume := true
    error := none
    cpu_volume_data := none
    render_value_range := (0, 1)
    pending_volume := none }

/-- Claim C4 is false on the code: with volume `"b"` selected, a result
fetched for volume `"a"` is *applied* — it becomes the CPU copy and the
pending GPU upload, and `loaded_volume` is even set to `"b"` — rather
than being detected as stale and discarded (the result type carries no
identifier that could be compared). -/
theorem poll_volume_data_applies_stale_result :
    (poll_volume_data staleApp (some (.ok staleData))).pending_volume
        = some staleData ∧
      (poll_volume_data staleApp (some (.ok staleData))).cpu_volume_data
        = some staleData ∧
      (poll_volume_data staleApp (some (.ok staleData))).loaded_volume
        = some "b" ∧
      poll_volume_data staleApp (some (.ok staleData)) ≠ staleApp := by
  refine ⟨rfl, rfl, rfl, ?_⟩
  intro h
  have := congrArg AppPollState.pending_volume h
  simp [poll_volume_data, staleApp] at this

/-- Claim C4 (amended): the consumer applies every arriving volume-data
result unconditionally — the result carries no volume identifier and no
comparison with the currently selected id is performed; the data becomes
the CPU copy and the pending volume, the stored value range is replaced,
and `loaded_volume` is set to whatever is currently selected. -/
theorem poll_volume_data_applies_unconditionally (app : AppPollState)
    (data : VolumeData) :
    (poll_volume_data app (some (.ok data))).pending_volume = some data ∧
    (poll_volume_data app (some (.ok data))).cpu_volume_data = some data ∧
    (poll_volume_data app (some (.ok data))).render_value_range = data.value_range ∧
    (poll_volume_data app (some (.ok data))).has_volume = true ∧
    (poll_volume_data app (some (.ok data))).loading_volume = false ∧
    (poll_volume_data app (some (.ok data))).loaded_volume = app.selected_volume ∧
    (poll_volume_data app (some (.ok data))).selected_volume = app.selected_volume ∧
    (poll_volume_data app (some (.ok data))).error = app.error :=
  ⟨rfl, rfl, rfl, rfl, rfl, rfl, rfl, rfl⟩

/-! ## Client side: rotation state (`app.rs`, glam quaternions)

`glam::Quat` is a plain `xyzw` quaternion over `f32`, modelled over `ℝ`
because `from_axis_angle` uses trigonometry.  `Quat::mul` is the Hamilton
product; `Quat::from_axis_angle(axis, a)` is
`(axis * sin(a/2), cos(a/2))`; `Quat::normalize` divides by the length;
`Quat::from_euler(EulerRot::XYZ, a, b, c)` composes the three
axis rotations `x * y * z`. -/

structure GQuat where
  x : ℝ
  y : ℝ
  z : ℝ
  w : ℝ

structure V3R where
  x : ℝ
  y : ℝ
  z : ℝ

def GQuat.mul (a b : GQuat) : GQuat :=
  { x := a.w * b.x + a.x * b.w + a.y * b.z - a.z * b.y
    y := a.w * b.y + a.y * b.w + a.z * b.x - a.x * b.z
    z := a.w * b.z + a.z * b.w + a.x * b.y - a.y * b.x
    w := a.w * b.w - a.x * b.x - a.y * b.y - a.z * b.z }

noncomputable def GQuat.from_axis_angle (axis : V3R) (angle : ℝ) : GQuat :=
  { x := axis.x * Real.sin (angle / 2)
    y := axis.y * Real.sin (angle / 2)
    z := axis.z * Real.sin (angle / 2)
    w := Real.cos (angle / 2) }

def GQuat.normSq (q : GQuat) : ℝ := q.x ^ 2 + q.y ^ 2 + q.z ^ 2 + q.w ^ 2

noncomputable def GQuat.length (q : GQuat) : ℝ := Real.sqrt q.normSq

noncomputable def GQuat.normalize (q : GQuat) : GQuat :=
  { x := q.x / q.length, y := q.y / q.length
    z := q.z / q.length, w := q.w / q.length }

def identityQuat : GQuat := { x := 0, y := 0, z := 0, w := 1 }

def vecX : V3R := { x := 1, y := 0, z := 0 }
def vecY : V3R := { x := 0, y := 1, z := 0 }
def vecZ : V3R := { x := 0, y := 0, z := 1 }

/-- Drag sensitivity, `0.01` radians per pixel (`src/client/src/app.rs:600`). -/
noncomputable def sensitivity : ℝ := 1 / 100

/-- The drag branch of `App::render_viewport`
(`src/client/src/app.rs:597-608`): build `rot_y` and `rot_x` from the drag
delta, pre-multiply `(rot_y * rot_x) * rotation`, renormalize. -/
noncomputable def drag_rotate (dx dy : ℝ) (q : GQuat) : GQuat :=
  let rot_y := GQuat.from_axis_angle vecY (dx * sensitivity)
  let rot_x := GQuat.from_axis_angle vecX (dy * sensitivity)
  GQuat.normalize (GQuat.mul (GQuat.mul rot_y rot_x) q)

/-- `glam::Quat::from_euler(EulerRot::XYZ, a, b, c)`, used by the
Euler-angle sliders (`src/client/src/app.rs:548-555`). -/
noncomputable def from_euler_xyz (a b c : ℝ) : GQuat :=
  GQuat.mul (GQuat.mul (GQuat.from_axis_angle vecX a)
    (GQuat.from_axis_angle vecY b)) (GQuat.from_axis_angle vecZ c)

/-- The operations that write `App.volume_rotation`: incremental drags,
Euler-slider edits (quaternion rebuilt from angles), and reset. -/
inductive RotationOp where
  | drag (dx dy : ℝ)
  | setEuler (a b c : ℝ)
  | reset

noncomputable def applyRotationOp (q : GQuat) : RotationOp → GQuat
  | .drag dx dy => drag_rotate dx dy q
  | .setEuler a b c => from_euler_xyz a b c
  | .reset => identityQuat

/-- Run a sequence of rotation updates from the initial
`Quat::IDENTITY`. -/
noncomputable def runRotationOps (ops : List RotationOp) : GQuat :=
  ops.foldl applyRotationOp identityQuat

/-! ### Quaternion lemmas -/

lemma GQuat.normSq_nonneg (q : GQuat) : 0 ≤ q.normSq := by
  unfold GQuat.normSq; positivity

lemma GQuat.normSq_mul (a b : GQuat) :
    (GQuat.mul a b).normSq = a.normSq * b.normSq := by
  unfold GQuat.mul GQuat.normSq; ring

lemma GQuat.normSq_from_axis_angle (axis : V3R)
    (h : axis.x ^ 2 + axis.y ^ 2 + axis.z ^ 2 = 1) (a : ℝ) :
    (GQuat.from_axis_angle axis a).normSq = 1 := by
  unfold GQuat.from_axis_angle GQuat.normSq
  have hs := Real.sin_sq_add_cos_sq (a / 2)
  linear_combination (Real.sin (a / 2)) ^ 2 * h + hs

lemma GQuat.normalize_of_normSq_one (q : GQuat) (h : q.normSq = 1) :
    GQuat.normalize q = q := by
  have hl : q.length = 1 := by
    unfold GQuat.length; rw [h]; exact Real.sqrt_one
  unfold GQuat.normalize
  rw [hl]
  simp

lemma normSq_applyRotationOp (q : GQuat) (op : RotationOp)
    (h : q.normSq = 1) : (applyRotationOp q op).normSq = 1 := by
  cases op with
  | drag dx dy =>
      show (drag_rotate dx dy q).normSq = 1
      unfold drag_rotate
      have hinner : (GQuat.mul (GQuat.mul
          (GQuat.from_axis_angle vecY (dx * sensitivity))
          (GQuat.from_axis_angle vecX (dy * sensitivity))) q).normSq = 1 := by
        rw [GQuat.normSq_mul, GQuat.normSq_mul,
          GQuat.normSq_from_axis_angle vecY (by unfold vecY; norm_num),
          GQuat.normSq_from_axis_angle vecX (by unfold vecX; norm_num), h]
        norm_num
      rw [GQuat.normalize_of_normSq_one _ hinner]
      exact hinner
  | setEuler a b c =>
      show (from_euler_xyz a b c).normSq = 1
      unfold from_euler_xyz
      rw [GQuat.normSq_mul, GQuat.normSq_mul,
        GQuat.normSq_from_axis_angle vecX (by unfold vecX; norm_num),
        GQuat.normSq_from_axis_angle vecY (by unfold vecY; norm_num),
        GQuat.normSq_from_axis_angle vecZ (by unfold vecZ; norm_num)]
      norm_num
  | reset =>
      show identityQuat.normSq = 1
      unfold identityQuat GQuat.normSq
      norm_num

lemma normSq_foldl_ops (ops : List RotationOp) (q : GQuat) (h : q.normSq = 1) :
    (ops.foldl applyRotationOp q).normSq = 1 := by
  induction ops generalizing q with
  | nil => exact h
  | cons op ops ih =>
      rw [List.foldl_cons]
      exact ih _ (normSq_applyRotationOp q op h)

/-! ## Claim C8 — rotation quaternion stays unit-norm -/

/-- Claim C8: after any sequence of drag updates (which renormalize),
Euler-slider edits (which rebuild the quaternion from angles) and resets,
starting from the identity, the volume-rotation quaternion has norm
exactly `1` in exact arithmetic — in particular within the `1e-5`
tolerance of the spec. -/
theorem rotation_quaternion_unit_norm (ops : List RotationOp) :
    GQuat.length (runRotationOps ops) = 1 ∧
    |GQuat.length (runRotationOps ops) - 1| < 1 / 100000 := by
  have h : (runRotationOps ops).normSq = 1 := by
    unfold runRotationOps
    exact normSq_foldl_ops ops identityQuat (by unfold identityQuat GQuat.normSq; norm_num)
  have hl : GQuat.length (runRotationOps ops) = 1 := by
    unfold GQuat.length; rw [h]; exact Real.sqrt_one
  refine ⟨hl, ?_⟩
  rw [hl]
  norm_num

/-! ## Claim C7 — drag composes rotY·rotX and pre-multiplies -/

/-- Claim C7: for every drag delta `(dx, dy)` and current rotation `q`,
the handler produces `normalize(rotY(dx*s) * rotX(dy*s) * q)` — the
increment `rotY * rotX` applied on the left of the current rotation; and
left-application genuinely differs from right-application: there is a
concrete input on which post-multiplication would give a different
rotation. -/
theorem drag_premultiplies_increment :
    (∀ (dx dy : ℝ) (q : GQuat),
      drag_rotate dx dy q =
        GQuat.normalize (GQuat.mul
          (GQuat.mul (GQuat.from_axis_angle vecY (dx * sensitivity))
            (GQuat.from_axis_angle vecX (dy * sensitivity))) q)) ∧
    (∃ (dx dy : ℝ) (q : GQuat),
      drag_rotate dx dy q ≠
        GQuat.normalize (GQuat.mul q
          (GQuat.mul (GQuat.from_axis_angle vecY (dx * sensitivity))
            (GQuat.from_axis_angle vecX (dy * sensitivity))))) := by
  constructor
  · intro dx dy q; rfl
  · refine ⟨100 * Real.pi, 0, GQuat.from_axis_angle vecX Real.pi, ?_⟩
    have hangle : (100 * Real.pi) * sensitivity = Real.pi := by
      unfold sensitivity; ring
    have hy : GQuat.from_axis_angle vecY ((100 * Real.pi) * sensitivity) =
        { x := 0, y := 1, z := 0, w := 0 } := by
      rw [hangle]
      unfold GQuat.from_axis_angle vecY
      simp [Real.sin_pi_div_two, Real.cos_pi_div_two]
    have hx0 : GQuat.from_axis_angle vecX ((0 : ℝ) * sensitivity) =
        { x := 0, y := 0, z := 0, w := 1 } := by
      unfold GQuat.from_axis_angle vecX
      norm_num
    have hq : GQuat.from_axis_angle vecX Real.pi =
        { x := 1, y := 0, z := 0, w := 0 } := by
      unfold GQuat.from_axis_angle vecX
      simp [Real.sin_pi_div_two, Real.cos_pi_div_two]
    intro heq
    simp only [drag_rotate] at heq
    rw [hy, hx0, hq] at heq
    have hpre : GQuat.mul (GQuat.mul { x := 0, y := 1, z := 0, w := 0 }
        { x := 0, y := 0, z := 0, w := 1 }) { x := 1, y := 0, z := 0, w := 0 } =
        ({ x := 0, y := 0, z := -1, w := 0 } : GQuat) := by
      unfold GQuat.mul
      simp only [GQuat.mk.injEq]
      norm_num
    have hpost : GQuat.mul { x := 1, y := 0, z := 0, w := 0 }
        (GQuat.mul { x := 0, y := 1, z := 0, w := 0 }
          { x := 0, y := 0, z := 0, w := 1 }) =
        ({ x := 0, y := 0, z := 1, w := 0 } : GQuat) := by
      unfold GQuat.mul
      simp only [GQuat.mk.injEq]
      norm_num
    have hn1 : GQuat.normalize ({ x := 0, y := 0, z := -1, w := 0 } : GQuat) =
        { x := 0, y := 0, z := -1, w := 0 } := by
      apply GQuat.normalize_of_normSq_one
      unfold GQuat.normSq
      norm_num
    have hn2 : GQuat.normalize ({ x := 0, y := 0, z := 1, w := 0 } : GQuat) =
        { x := 0, y := 0, z := 1, w := 0 } := by
      apply GQuat.normalize_of_normSq_one
      unfold GQuat.normSq
      norm_num
    rw [hpre, hpost, hn1, hn2] at heq
    have hz := congrArg GQuat.z heq
    norm_num at hz

/-! ## Client side: `App::raycast_volume` (CPU picker)

`src/client/src/app.rs:398-461`, modelled over `ℚ`.  `glam::Vec3`
arithmetic is componentwise; `Mat4::from_quat(q).transpose()` followed by
`transform_point3` is the transposed 3×3 rotation matrix of `q` applied to
the vector (the `Mat4` carries no translation).  The `f32 → u32` casts of
the non-negative voxel coordinates are `Nat.floor`.  The `while t < t_far`
loop advances `t` by a fixed step, so it runs at most
`⌈(t_far - t_near)/step⌉ + 1` iterations; `march_loop` carries that bound
as structural fuel and the fuel-independence of the result is proved in
the claim theorem. -/

structure Vec3Q where
  x : ℚ
  y : ℚ
  z : ℚ
deriving DecidableEq

def Vec3Q.add (a b : Vec3Q) : Vec3Q := { x := a.x + b.x, y := a.y + b.y, z := a.z + b.z }

def Vec3Q.sub (a b : Vec3Q) : Vec3Q := { x := a.x - b.x, y := a.y - b.y, z := a.z - b.z }

def Vec3Q.cmul (a b : Vec3Q) : Vec3Q := { x := a.x * b.x, y := a.y * b.y, z := a.z * b.z }

def Vec3Q.smul (a : Vec3Q) (t : ℚ) : Vec3Q := { x := a.x * t, y := a.y * t, z := a.z * t }

def Vec3Q.cmin (a b : Vec3Q) : Vec3Q :=
  { x := min a.x b.x, y := min a.y b.y, z := min a.z b.z }

def Vec3Q.cmax (a b : Vec3Q) : Vec3Q :=
  { x := max a.x b.x, y := max a.y b.y, z := max a.z b.z }

/-- `glam::Quat` as stored in `App.volume_rotation`, over `ℚ` (the picker
itself performs no trigonometry). -/
structure QuatQ where
  x : ℚ
  y : ℚ
  z : ℚ
  w : ℚ
deriving DecidableEq

/-- Row-major 3×3 matrix (the rotation block of a `glam::Mat4`). -/
structure Mat3Q where
  m00 : ℚ
  m01 : ℚ
  m02 : ℚ
  m10 : ℚ
  m11 : ℚ
  m12 : ℚ
  m20 : ℚ
  m21 : ℚ
  m22 : ℚ
deriving DecidableEq

/-- The 3×3 rotation block of `glam::Mat4::from_quat` (columns `x_axis`,
`y_axis`, `z_axis` of the glam source). -/
def mat3_from_quat (q : QuatQ) : Mat3Q :=
  { m00 := 1 - 2 * q.y ^ 2 - 2 * q.z ^ 2
    m10 := 2 * q.x * q.y + 2 * q.w * q.z
    m20 := 2 * q.x * q.z - 2 * q.w * q.y
    m01 := 2 * q.x * q.y - 2 * q.w * q.z
    m11 := 1 - 2 * q.x ^ 2 - 2 * q.z ^ 2
    m21 := 2 * q.y * q.z + 2 * q.w * q.x
    m02 := 2 * q.x * q.z + 2 * q.w * q.y
    m12 := 2 * q.y * q.z - 2 * q.w * q.x
    m22 := 1 - 2 * q.x ^ 2 - 2 * q.y ^ 2 }

def Mat3Q.transpose (m : Mat3Q) : Mat3Q :=
  { m00 := m.m00, m01 := m.m10, m02 := m.m20
    m10 := m.m01, m11 := m.m11, m12 := m.m21
    m20 := m.m02, m21 := m.m12, m22 := m.m22 }

/-- `Mat4::transform_point3` for a rotation-only matrix. -/
def Mat3Q.mulVec (m : Mat3Q) (v : Vec3Q) : Vec3Q :=
  { x := m.m00 * v.x + m.m01 * v.y + m.m02 * v.z
    y := m.m10 * v.x + m.m11 * v.y + m.m12 * v.z
    z := m.m20 * v.x + m.m21 * v.y + m.m22 * v.z }

def Mat3Q.matMul (a b : Mat3Q) : Mat3Q :=
  { m00 := a.m00 * b.m00 + a.m01 * b.m10 + a.m02 * b.m20
    m01 := a.m00 * b.m01 + a.m01 * b.m11 + a.m02 * b.m21
    m02 := a.m00 * b.m02 + a.m01 * b.m12 + a.m02 * b.m22
    m10 := a.m10 * b.m00 + a.m11 * b.m10 + a.m12 * b.m20
    m11 := a.m10 * b.m01 + a.m11 * b.m11 + a.m12 * b.m21
    m12 := a.m10 * b.m02 + a.m11 * b.m12 + a.m12 * b.m22
    m20 := a.m20 * b.m00 + a.m21 * b.m10 + a.m22 * b.m20
    m21 := a.m20 * b.m01 + a.m21 * b.m11 + a.m22 * b.m21
    m22 := a.m20 * b.m02 + a.m21 * b.m12 + a.m22 * b.m22 }

def Mat3Q.one : Mat3Q :=
  { m00 := 1, m01 := 0, m02 := 0
    m10 := 0, m11 := 1, m12 := 0
    m20 := 0, m21 := 0, m22 := 1 }

/-- `HoverInfo` (`src/client/src/app.rs:25-37`). -/
structure HoverInfoQ where
  valid : Bool
  position : Vec3Q
  value : ℚ
  normalized : ℚ
  voxel : ℕ × ℕ × ℕ
deriving DecidableEq

/-- Fixed picking step, `0.01` (`src/client/src/app.rs:417`). -/
def pick_step_size : ℚ := 1 / 100

/-- Fixed picking threshold, `0.05` (`src/client/src/app.rs:419`). -/
def pick_threshold : ℚ := 1 / 20

/-- Body of one marching iteration: sample the volume at parameter `t`
along the ray; `some info` when the voxel there is significant. -/
def sample_at (vol : VolumeData) (rotq : QuatQ) (ray_origin ray_dir : Vec3Q)
    (t : ℚ) : Option HoverInfoQ :=
  let pos := ray_origin.add (ray_dir.smul t)
  let centered := pos.sub { x := 1/2, y := 1/2, z := 1/2 }
  let rot_inv := (mat3_from_quat rotq).transpose
  let rotated := rot_inv.mulVec centered
  let rotated_pos := rotated.add { x := 1/2, y := 1/2, z := 1/2 }
  if 0 ≤ rotated_pos.x ∧ rotated_pos.x ≤ 1 ∧ 0 ≤ rotated_pos.y ∧
      rotated_pos.y ≤ 1 ∧ 0 ≤ rotated_pos.z ∧ rotated_pos.z ≤ 1 then
    let vx := min ⌊rotated_pos.x * (vol.dims.1 : ℚ)⌋₊ (vol.dims.1 - 1)
    let vy := min ⌊rotated_pos.y * (vol.dims.2.1 : ℚ)⌋₊ (vol.dims.2.1 - 1)
    let vz := min ⌊rotated_pos.z * (vol.dims.2.2 : ℚ)⌋₊ (vol.dims.2.2 - 1)
    let idx := vx * vol.dims.2.1 * vol.dims.2.2 + vy * vol.dims.2.2 + vz
    if idx < vol.data.length then
      let value := vol.data.getD idx 0
      let normalized := (value - vol.value_range.1) /
        (vol.value_range.2 - vol.value_range.1)
      if normalized > pick_threshold then
        some { valid := true, position := rotated_pos, value := value
               normalized := normalized, voxel := (vx, vy, vz) }
      else none
    else none
  else none

/-- The `while t < t_far` loop, with structural fuel. -/
def march_loop (vol : VolumeData) (rotq : QuatQ) (ray_origin ray_dir : Vec3Q)
    (t_far : ℚ) : ℕ → ℚ → Option HoverInfoQ
  | 0, _ => none
  | fuel + 1, t =>
      if t < t_far then
        match sample_at vol rotq ray_origin ray_dir t with
        | some info => some info
        | none => march_loop vol rotq ray_origin ray_dir t_far fuel
            (t + pick_step_size)
      else none

/-- Enough fuel for the whole interval `[t_near, t_far)`. -/
def march_fuel (t_near t_far : ℚ) : ℕ :=
  ⌈(t_far - t_near) / pick_step_size⌉₊ + 1

/-- `App::raycast_volume` (`src/client/src/app.rs:398-461`). -/
def raycast_volume (vol : VolumeData) (rotq : QuatQ)
    (ray_origin ray_dir : Vec3Q) : Option HoverInfoQ :=
  let inv_dir : Vec3Q := { x := 1 / ray_dir.x, y := 1 / ray_dir.y, z := 1 / ray_dir.z }
  let t0 := (Vec3Q.sub { x := 0, y := 0, z := 0 } ray_origin).cmul inv_dir
  let t1 := (Vec3Q.sub { x := 1, y := 1, z := 1 } ray_origin).cmul inv_dir
  let tmin := t0.cmin t1
  let tmax := t0.cmax t1
  let t_near := max (max (max tmin.x tmin.y) tmin.z) 0
  let t_far := min (min tmax.x tmax.y) tmax.z
  if t_near > t_far then none
  else march_loop vol rotq ray_origin ray_dir t_far
    (march_fuel t_near t_far) t_near

/-! ### Spec-side formulas for the slab interval and the first hit -/

/-- Spec formula: `tNear` is the max over components of `min(t0, t1)`,
clamped to `≥ 0`. -/
def slab_t_near (o d : Vec3Q) : ℚ :=
  max (max (max (min ((0 - o.x) / d.x) ((1 - o.x) / d.x))
                (min ((0 - o.y) / d.y) ((1 - o.y) / d.y)))
           (min ((0 - o.z) / d.z) ((1 - o.z) / d.z))) 0

/-- Spec formula: `tFar` is the min over components of `max(t0, t1)`. -/
def slab_t_far (o d : Vec3Q) : ℚ :=
  min (min (max ((0 - o.x) / d.x) ((1 - o.x) / d.x))
           (max ((0 - o.y) / d.y) ((1 - o.y) / d.y)))
      (max ((0 - o.z) / d.z) ((1 - o.z) / d.z))

/-- Spec-side marching: the first significant sample among
`t_near, t_near + step, …` strictly below `t_far`. -/
def first_hit (vol : VolumeData) (rotq : QuatQ) (o d : Vec3Q)
    (t_near t_far : ℚ) (n : ℕ) : Option HoverInfoQ :=
  (List.range n).findSome? fun (i : ℕ) =>
    if t_near + (i : ℚ) * pick_step_size < t_far then
      sample_at vol rotq o d (t_near + (i : ℚ) * pick_step_size)
    else none

lemma raycast_volume_eq (vol : VolumeData) (rotq : QuatQ) (o d : Vec3Q) :
    raycast_volume vol rotq o d =
      if slab_t_near o d > slab_t_far o d then none
      else march_loop vol rotq o d (slab_t_far o d)
        (march_fuel (slab_t_near o d) (slab_t_far o d)) (slab_t_near o d) := by
  simp only [raycast_volume, Vec3Q.sub, Vec3Q.cmul, Vec3Q.cmin, Vec3Q.cmax,
    slab_t_near, slab_t_far, mul_one_div]

lemma march_loop_eq_first_hit (vol : VolumeData) (rotq : QuatQ) (o d : Vec3Q)
    (t_far : ℚ) (n : ℕ) (t : ℚ) :
    march_loop vol rotq o d t_far n t = first_hit vol rotq o d t t_far n := by
  induction n generalizing t with
  | zero => rfl
  | succ n ih =>
    unfold first_hit
    rw [List.range_succ_eq_map, List.findSome?_cons]
    by_cases ht : t < t_far
    · have h0 : (if t + ((0 : ℕ) : ℚ) * pick_step_size < t_far then
          sample_at vol rotq o d (t + ((0 : ℕ) : ℚ) * pick_step_size)
          else none) = sample_at vol rotq o d t := by
        norm_num [ht]
      rw [h0]
      show (if t < t_far then _ else none) = _
      rw [if_pos ht]
      cases hs : sample_at vol rotq o d t with
      | some info => rfl
      | none =>
          have hmap : (List.findSome? (fun (i : ℕ) =>
              if t + (i : ℚ) * pick_step_size < t_far then
                sample_at vol rotq o d (t + (i : ℚ) * pick_step_size)
              else none) (List.map Nat.succ (List.range n))) =
              first_hit vol rotq o d (t + pick_step_size) t_far n := by
            rw [List.findSome?_map]
            unfold first_hit
            congr 1
            funext (i : ℕ)
            have key : t + ((Nat.succ i : ℕ) : ℚ) * pick_step_size =
                (t + pick_step_size) + (i : ℚ) * pick_step_size := by
              push_cast
              ring
            simp only [Function.comp_apply, key]
          rw [hmap]
          exact ih (t + pick_step_size)
    · show (if t < t_far then _ else none) = _
      rw [if_neg ht]
      have h0 : (if t + ((0 : ℕ) : ℚ) * pick_step_size < t_far then
          sample_at vol rotq o d (t + ((0 : ℕ) : ℚ) * pick_step_size)
          else none) = none := by
        norm_num [ht]
      rw [h0]
      symm
      rw [List.findSome?_eq_none]
      intro j hj
      obtain ⟨i, _, rfl⟩ := List.mem_map.1 hj
      have hpos : (0 : ℚ) ≤ ((i : ℚ) + 1) * pick_step_size := by
        unfold pick_step_size
        positivity
      rw [if_neg]
      push_cast
      push_neg at ht ⊢
      nlinarith

lemma first_hit_extend (vol : VolumeData) (rotq : QuatQ) (o d : Vec3Q)
    (t_near t_far : ℚ) (n : ℕ) (hn : march_fuel t_near t_far ≤ n) :
    first_hit vol rotq o d t_near t_far n =
      first_hit vol rotq o d t_near t_far (march_fuel t_near t_far) := by
  obtain ⟨m, rfl⟩ := Nat.exists_eq_add_of_le hn
  unfold first_hit
  rw [List.range_add, List.findSome?_append]
  have hnone : List.findSome? (fun (i : ℕ) =>
      if t_near + (i : ℚ) * pick_step_size < t_far then
        sample_at vol rotq o d (t_near + (i : ℚ) * pick_step_size)
      else none)
      (List.map (fun x => march_fuel t_near t_far + x) (List.range m)) = none := by
    rw [List.findSome?_eq_none]
    intro j hj
    obtain ⟨i, _, rfl⟩ := List.mem_map.1 hj
    rw [if_neg]
    have hceil : (t_far - t_near) / pick_step_size ≤
        (⌈(t_far - t_near) / pick_step_size⌉₊ : ℚ) := Nat.le_ceil _
    have hfuel : ((march_fuel t_near t_far : ℕ) : ℚ) =
        (⌈(t_far - t_near) / pick_step_size⌉₊ : ℚ) + 1 := by
      unfold march_fuel
      push_cast
      ring
    have hstep : pick_step_size = 1 / 100 := rfl
    have hmul : ((t_far - t_near) / pick_step_size) * pick_step_size =
        t_far - t_near := by
      rw [hstep]
      field_simp
    have hipos : (0 : ℚ) ≤ (i : ℚ) := Nat.cast_nonneg i
    push_cast
    push_neg
    nlinarith [hceil, hfuel, hmul, hipos]
  rw [hnone, Option.or_none]

lemma sample_at_spec (vol : VolumeData) (rotq : QuatQ) (o d : Vec3Q) (t : ℚ)
    (info : HoverInfoQ) (h : sample_at vol rotq o d t = some info) :
    info.valid = true ∧
    info.normalized = (info.value - vol.value_range.1) /
      (vol.value_range.2 - vol.value_range.1) ∧
    info.normalized > pick_threshold := by
  simp only [sample_at] at h
  split_ifs at h with h1 h2 h3
  · have heq := Option.some.inj h
    subst heq
    exact ⟨rfl, rfl, h3⟩

lemma mat3_transpose_is_inverse (q : QuatQ)
    (h : q.x ^ 2 + q.y ^ 2 + q.z ^ 2 + q.w ^ 2 = 1) :
    Mat3Q.matMul (Mat3Q.transpose (mat3_from_quat q)) (mat3_from_quat q) =
      Mat3Q.one := by
  unfold mat3_from_quat Mat3Q.transpose Mat3Q.matMul Mat3Q.one
  simp only [Mat3Q.mk.injEq]
  refine ⟨?_, ?_, ?_, ?_, ?_, ?_, ?_, ?_, ?_⟩
  · linear_combination (4 * (q.y ^ 2 + q.z ^ 2)) * h
  · linear_combination (-(4 * q.x * q.y)) * h
  · linear_combination (-(4 * q.x * q.z)) * h
  · linear_combination (-(4 * q.x * q.y)) * h
  · linear_combination (4 * (q.x ^ 2 + q.z ^ 2)) * h
  · linear_combination (-(4 * q.y * q.z)) * h
  · linear_combination (-(4 * q.x * q.z)) * h
  · linear_combination (-(4 * q.y * q.z)) * h
  · linear_combination (4 * (q.x ^ 2 + q.y ^ 2)) * h

/-! ## Claim C2 — CPU picker: slab interval, marching, first hit -/

/-- Claim C2: for every ray whose direction has no zero component (the
domain on which the exact-arithmetic model agrees with the `f32`
slab code), the picker computes `tNear` as the max over components of
`min(t0,t1)` clamped to `≥ 0` and `tFar` as the min over components of
`max(t0,t1)`; it reports no hit when `tNear > tFar`; otherwise it marches
with the fixed step from `tNear` to `tFar` (any sufficiently large fuel
gives the same traversal) and returns the first sampled voxel whose
normalized value exceeds `0.05`, with `valid = true` and the normalized
value derived from the raw value and the value range; and the transposed
rotation matrix it applies to each sample is the inverse of the volume
rotation whenever the rotation quaternion is unit. -/
theorem raycast_volume_spec (vol : VolumeData) (rotq : QuatQ) (o d : Vec3Q)
    (hdx : d.x ≠ 0) (hdy : d.y ≠ 0) (hdz : d.z ≠ 0) :
    (slab_t_near o d > slab_t_far o d → raycast_volume vol rotq o d = none) ∧
    (slab_t_near o d ≤ slab_t_far o d →
      ∀ n : ℕ, march_fuel (slab_t_near o d) (slab_t_far o d) ≤ n →
        raycast_volume vol rotq o d =
          first_hit vol rotq o d (slab_t_near o d) (slab_t_far o d) n) ∧
    (∀ info : HoverInfoQ, raycast_volume vol rotq o d = some info →
      info.valid = true ∧
      info.normalized = (info.value - vol.value_range.1) /
        (vol.value_range.2 - vol.value_range.1) ∧
      info.normalized > 1 / 20) ∧
    (∀ q : QuatQ, q.x ^ 2 + q.y ^ 2 + q.z ^ 2 + q.w ^ 2 = 1 →
      Mat3Q.matMul (Mat3Q.transpose (mat3_from_quat q)) (mat3_from_quat q) =
        Mat3Q.one) := by
  have hmain : slab_t_near o d ≤ slab_t_far o d →
      ∀ n : ℕ, march_fuel (slab_t_near o d) (slab_t_far o d) ≤ n →
        raycast_volume vol rotq o d =
          first_hit vol rotq o d (slab_t_near o d) (slab_t_far o d) n := by
    intro hle n hn
    rw [raycast_volume_eq, if_neg (not_lt.2 hle),
      march_loop_eq_first_hit, first_hit_extend vol rotq o d _ _ n hn]
  refine ⟨?_, hmain, ?_, fun q hq => mat3_transpose_is_inverse q hq⟩
  · intro hgt
    rw [raycast_volume_eq, if_pos hgt]
  · intro info hinfo
    by_cases hle : slab_t_near o d ≤ slab_t_far o d
    · rw [hmain hle (march_fuel (slab_t_near o d) (slab_t_far o d)) le_rfl]
        at hinfo
      obtain ⟨i, _, hif⟩ := List.exists_of_findSome?_eq_some hinfo
      split_ifs at hif
      have := sample_at_spec vol rotq o d _ info hif
      exact ⟨this.1, this.2.1, this.2.2⟩
    · rw [raycast_volume_eq, if_pos (lt_of_not_ge hle)] at hinfo
      exact absurd hinfo (by simp)

/-- A concrete picking scenario: unit-cube volume of one bright voxel,
identity rotation, ray entering through the `x = 0` face. -/
def pickVol : VolumeData :=
  { data := [1], dims := (1, 1, 1), value_range := (0, 1) }

def pickOrigin : Vec3Q := { x := -(1/2), y := 1/2, z := 1/2 }

def pickDir : Vec3Q := { x := 1, y := 1, z := 1 }

theorem raycast_volume_spec_witness :
    (pickDir.x ≠ 0 ∧ pickDir.y ≠ 0 ∧ pickDir.z ≠ 0) ∧
    ((slab_t_near pickOrigin pickDir > slab_t_far pickOrigin pickDir →
        raycast_volume pickVol { x := 0, y := 0, z := 0, w := 1 }
          pickOrigin pickDir = none) ∧
      (slab_t_near pickOrigin pickDir ≤ slab_t_far pickOrigin pickDir →
        ∀ n : ℕ,
          march_fuel (slab_t_near pickOrigin pickDir)
            (slab_t_far pickOrigin pickDir) ≤ n →
          raycast_volume pickVol { x := 0, y := 0, z := 0, w := 1 }
              pickOrigin pickDir =
            first_hit pickVol { x := 0, y := 0, z := 0, w := 1 }
              pickOrigin pickDir (slab_t_near pickOrigin pickDir)
              (slab_t_far pickOrigin pickDir) n) ∧
      (∀ info : HoverInfoQ,
        raycast_volume pickVol { x := 0, y := 0, z := 0, w := 1 }
            pickOrigin pickDir = some info →
          info.valid = true ∧
          info.normalized = (info.value - pickVol.value_range.1) /
            (pickVol.value_range.2 - pickVol.value_range.1) ∧
          info.normalized > 1 / 20) ∧
      (∀ q : QuatQ, q.x ^ 2 + q.y ^ 2 + q.z ^ 2 + q.w ^ 2 = 1 →
        Mat3Q.matMul (Mat3Q.transpose (mat3_from_quat q)) (mat3_from_quat q) =
          Mat3Q.one)) :=
  ⟨⟨by norm_num [pickDir], by norm_num [pickDir], by norm_num [pickDir]⟩,
    raycast_volume_spec pickVol { x := 0, y := 0, z := 0, w := 1 }
      pickOrigin pickDir (by norm_num [pickDir]) (by norm_num [pickDir])
      (by norm_num [pickDir])⟩
